import Mathlib

/-!
Verification development for the maven-mcp-server core logic
(coordinate parsing, pre-release classification, version selection
and the tool handlers of src/index.ts). String-valued JavaScript
primitives are modelled over `List Char`; registry responses are
passed in explicitly as a list of documents.
-/

/-- Model of String.prototype.split with a single-character separator:
splitting never yields the empty list, and empty segments are kept. -/
def splitCharList (c : Char) : List Char → List (List Char)
  | [] => [[]]
  | x :: xs =>
    let r := splitCharList c xs
    if x = c then [] :: r
    else
      match r with
      | [] => [[x]]
      | h :: t => (x :: h) :: t

/-- Model of dependency.split(sep) for a one-character separator. -/
def jsSplit (c : Char) (s : String) : List String :=
  (splitCharList c s.data).map String.mk

/-- Model of the MavenCoordinate interface of src/index.ts. -/
structure MavenCoordinate where
  groupId : String
  artifactId : String
  version : Option String
  packaging : Option String
  classifier : Option String
deriving Repr, DecidableEq

/-- Error codes used by the server (subset of the MCP SDK ErrorCode enum). -/
inductive ErrorCode where
  | InvalidParams
  | MethodNotFound
deriving Repr, DecidableEq

/-- Model of McpError: an error code together with its message. -/
structure McpError where
  code : ErrorCode
  message : String
deriving Repr, DecidableEq

/-- The error thrown by parseMavenCoordinate when fewer than 2
colon-delimited segments are present. -/
def invalidCoordinateFormatError : McpError :=
  ⟨ErrorCode.InvalidParams,
   "Invalid Maven coordinate format. Minimum format is \"groupId:artifactId\""⟩

/-- The error thrown by the handlers when argument validation fails. -/
def invalidDependencyFormatError : McpError :=
  ⟨ErrorCode.InvalidParams, "Invalid Maven dependency format"⟩

/-- The error thrown by handleCheckVersionExists when no version is
available from either source. -/
def invalidVersionSourceError : McpError :=
  ⟨ErrorCode.InvalidParams,
   "Version must be provided either in dependency string or version parameter"⟩

/-- Core of parseMavenCoordinate after the split: fewer than 2 segments
is rejected, otherwise fields are parts[0..4] with absent indices
becoming undefined (here: none). -/
def coordOfParts : List String → Except McpError MavenCoordinate
  | g :: a :: rest => Except.ok ⟨g, a, rest[0]?, rest[1]?, rest[2]?⟩
  | _ => Except.error invalidCoordinateFormatError

/-- Model of parseMavenCoordinate from src/index.ts (lines 36-52 and
621-637, identical in both variants). -/
def parseMavenCoordinate (dependency : String) : Except McpError MavenCoordinate :=
  coordOfParts (jsSplit ':' dependency)

/-- The qualifier alternatives of the pre-release regex, in source order. -/
def preReleaseQualifiers : List String :=
  ["alpha", "a", "beta", "b", "milestone", "m", "rc", "cr", "snapshot"]

/-- Case-insensitive prefix test on character lists (models the regex
/i flag for the ASCII patterns involved). -/
def prefixCI : List Char → List Char → Bool
  | [], _ => true
  | _ :: _, [] => false
  | p :: ps, c :: cs => (p.toLower = c.toLower) && prefixCI ps cs

/-- Case-insensitive infix test: the pattern matches at some position. -/
def infixCI (pat : List Char) : List Char → Bool
  | [] => prefixCI pat []
  | c :: cs => prefixCI pat (c :: cs) || infixCI pat cs

/-- Model of isPreReleaseVersion (src/index.ts lines 639-643): the
regex test for a hyphen followed by one of the qualifier tokens,
case-insensitive, anywhere in the string. -/
def isPreReleaseVersion (version : String) : Bool :=
  preReleaseQualifiers.any (fun q => infixCI ('-' :: q.data) version.data)

/-- Natural value of a digit list (most significant first). -/
def digitsToNat : List Char → Nat
  | [] => 0
  | c :: cs => List.foldl (fun acc d => acc * 10 + (d.toNat - 48)) (c.toNat - 48) cs

/-- Model of the JavaScript coercion Number(component) followed by the
|| 0 fallback used in the version comparator: an optionally signed
digit string yields its integer value, everything else (including the
empty string and NaN-producing strings) contributes 0. Exotic numeric
literal forms (hexadecimal, exponent notation) are not produced by
dot-splitting version strings and are not modelled. -/
def jsNumberOrZero (s : String) : Int :=
  match s.data with
  | [] => 0
  | '-' :: rest =>
    if rest ≠ [] && rest.all Char.isDigit then -(digitsToNat rest : Int) else 0
  | '+' :: rest =>
    if rest ≠ [] && rest.all Char.isDigit then (digitsToNat rest : Int) else 0
  | l => if l.all Char.isDigit then (digitsToNat l : Int) else 0

/-- The dot-separated components of a version string, coerced to
integers (handleGetLatestVersion lines 192-193). -/
def versionParts (s : String) : List Int :=
  (jsSplit '.' s).map jsNumberOrZero

/-- Pad a component list with zeros up to length n (missing components
compare as 0 in the comparator loop). -/
def padParts (n : Nat) (l : List Int) : List Int :=
  l ++ List.replicate (n - l.length) 0

/-- The comparator loop: first differing component pair decides, with
result bNum - aNum; equal throughout gives 0. -/
def cmpPairs : List (Int × Int) → Int
  | [] => 0
  | (a, b) :: rest => if a ≠ b then b - a else cmpPairs rest

/-- Model of the version comparator of handleGetLatestVersion
(src/index.ts lines 191-203). -/
def compareVersions (a b : String) : Int :=
  let aParts := versionParts a
  let bParts := versionParts b
  let n := max aParts.length bParts.length
  cmpPairs (List.zip (padParts n aParts) (padParts n bParts))

/-- Model of versions.sort(comparator): a stable sort placing x before
y when comparator x y is nonpositive, as a JavaScript stable sort does
for a consistent comparator. -/
def sortVersions (versions : List String) : List String :=
  List.insertionSort (fun a b => compareVersions a b ≤ 0) versions

/-- Model of versions.sort(comparator)[0] in handleGetLatestVersion. -/
def latestBySemanticVersion (versions : List String) : Option String :=
  (sortVersions versions).head?

/-- Model of a document of the MavenSearchResponse: the fields the
core logic consumes. Timestamps are epoch milliseconds; Maven Central
publish timestamps are nonnegative, so they are modelled as Nat. -/
structure VersionDoc where
  id : String
  g : String
  a : String
  v : String
  p : Option String
  timestamp : Nat
deriving Repr, DecidableEq

/-- Model of a tool response: a single text payload plus the isError
flag (absent flag modelled as false). -/
structure ToolResult where
  text : String
  isError : Bool
deriving Repr, DecidableEq

/-- The coordinate interpolation coord.packaging ? ":" + coord.packaging : ""
(an empty packaging string is falsy in JavaScript). -/
def packagingSuffix (coord : MavenCoordinate) : String :=
  match coord.packaging with
  | some p => if p.isEmpty then "" else ":" ++ p
  | none => ""

/-- The groupId:artifactId[:packaging] label interpolated into the
not-found and no-stable-releases messages. -/
def coordLabel (coord : MavenCoordinate) : String :=
  coord.groupId ++ ":" ++ coord.artifactId ++ packagingSuffix coord

/-- The zero-candidate message of the handlers. -/
def notFoundText (coord : MavenCoordinate) : String :=
  "No Maven dependency found for " ++ coordLabel coord

/-- The all-pre-releases message of handleGetLatestRelease and
handleListVersions. -/
def noStableText (coord : MavenCoordinate) : String :=
  "No stable releases found for " ++ coordLabel coord ++
    ". All available versions are pre-releases."

/-- The pre-release filter applied when excludePreReleases is set
(identical in handleGetLatestRelease and handleListVersions). -/
def filterDocs (excludePreReleases : Bool) (docs : List VersionDoc) : List VersionDoc :=
  if excludePreReleases then docs.filter (fun d => !(isPreReleaseVersion d.v)) else docs

/-- Version of the first document, modelling versions[0].v; the source
only evaluates it on a nonempty list. -/
def headVersion : List VersionDoc → String
  | [] => ""
  | d :: _ => d.v

/-- Model of the response-processing stage of handleGetLatestRelease
(src/index.ts lines 820-858), taking the fetched document list as an
explicit argument. -/
def getLatestReleaseResult (coord : MavenCoordinate) (excludePreReleases : Bool)
    (docs : List VersionDoc) : ToolResult :=
  if docs.isEmpty then ⟨notFoundText coord, true⟩
  else
    let versions := filterDocs excludePreReleases docs
    if excludePreReleases && versions.isEmpty then ⟨noStableText coord, true⟩
    else ⟨headVersion versions, false⟩

/-- Civil date (year, month, day) from days since 1970-01-01, the
standard Gregorian conversion used to model Date.toISOString. -/
def civilFromDays (z0 : Nat) : Nat × Nat × Nat :=
  let z := z0 + 719468
  let era := z / 146097
  let doe := z % 146097
  let yoe := (doe - doe / 1460 + doe / 36524 - doe / 146096) / 365
  let y := yoe + era * 400
  let doy := doe - (365 * yoe + yoe / 4 - yoe / 100)
  let mp := (5 * doy + 2) / 153
  let d := doy - (153 * mp + 2) / 5 + 1
  let m := if mp < 10 then mp + 3 else mp - 9
  (if m ≤ 2 then y + 1 else y, m, d)

/-- Zero-pad to two digits. -/
def pad2 (n : Nat) : String := if n < 10 then "0" ++ toString n else toString n

/-- Zero-pad to four digits (toISOString year field). -/
def pad4 (n : Nat) : String :=
  if n < 10 then "000" ++ toString n
  else if n < 100 then "00" ++ toString n
  else if n < 1000 then "0" ++ toString n
  else toString n

/-- Model of new Date(ms).toISOString().split("T")[0]: the yyyy-mm-dd
date part, in UTC. -/
def isoDateOfMillis (ms : Nat) : String :=
  let c := civilFromDays (ms / 86400000)
  pad4 c.1 ++ "-" ++ pad2 c.2.1 ++ "-" ++ pad2 c.2.2

/-- The ordering relation of docs.sort((a, b) => b.timestamp - a.timestamp):
descending by timestamp. -/
def timestampGe (a b : VersionDoc) : Prop := b.timestamp ≤ a.timestamp

instance : DecidableRel timestampGe := fun a b => Nat.decLe b.timestamp a.timestamp

instance : IsTotal VersionDoc timestampGe := ⟨fun a b => Nat.le_total b.timestamp a.timestamp⟩

instance : IsTrans VersionDoc timestampGe :=
  ⟨fun _ _ _ h1 h2 => Nat.le_trans h2 h1⟩

/-- Model of docs.sort((a, b) => b.timestamp - a.timestamp): a stable
sort by descending timestamp, as a JavaScript stable sort with this
comparator produces. -/
def sortByTimestampDesc (docs : List VersionDoc) : List VersionDoc :=
  List.insertionSort timestampGe docs

/-- The listing line for a document (handleListVersions line 1001). -/
def formatVersionLine (d : VersionDoc) : String :=
  d.v ++ " (" ++ isoDateOfMillis d.timestamp ++ ")"

/-- The version lines of handleListVersions: sort by timestamp
descending, take depth entries, format each one. The validator
guarantees a positive depth before this point; slice(0, depth) is
List.take of its truncation. -/
def listVersionsLines (depth : Int) (docs : List VersionDoc) : List String :=
  ((sortByTimestampDesc docs).take depth.toNat).map formatVersionLine

/-- Model of the response-processing stage of handleListVersions
(src/index.ts lines 966-1010). -/
def listVersionsResult (coord : MavenCoordinate) (depth : Int) (excludePreReleases : Bool)
    (docs : List VersionDoc) : ToolResult :=
  if docs.isEmpty then ⟨notFoundText coord, true⟩
  else
    let filteredDocs := filterDocs excludePreReleases docs
    if filteredDocs.isEmpty then
      ⟨if excludePreReleases then noStableText coord else notFoundText coord, true⟩
    else ⟨String.intercalate "\n" (listVersionsLines depth filteredDocs), false⟩

/-- Arguments of list_maven_versions, already typed: the untyped
runtime type checks of isValidListVersionsArgs are absorbed by the
field types. -/
structure ListVersionsArgs where
  dependency : String
  depth : Option Int
  excludePreReleases : Option Bool
deriving Repr, DecidableEq

/-- Model of isValidListVersionsArgs (src/index.ts lines 668-675): the
only value constraint it checks is args.depth > 0 when depth is given. -/
def isValidListVersionsArgs (args : ListVersionsArgs) : Bool :=
  match args.depth with
  | none => true
  | some d => decide (0 < d)

/-- Model of args.depth || 15: a falsy depth (absent, or the number 0)
falls back to 15. -/
def resolveDepth (depth : Option Int) : Int :=
  match depth with
  | none => 15
  | some d => if d = 0 then 15 else d

/-- Model of handleListVersions (src/index.ts lines 938-1010) up to
the network call: validation, coordinate parsing, then the pure
response processing over the fetched document list. -/
def handleListVersions (args : ListVersionsArgs) (docs : List VersionDoc) :
    Except McpError ToolResult :=
  if !isValidListVersionsArgs args then Except.error invalidDependencyFormatError
  else
    match parseMavenCoordinate args.dependency with
    | Except.error e => Except.error e
    | Except.ok coord =>
      Except.ok (listVersionsResult coord (resolveDepth args.depth)
        ((args.excludePreReleases).getD true) docs)

/-- Arguments of check_maven_version_exists, already typed. -/
structure CheckVersionArgs where
  dependency : String
  version : Option String
deriving Repr, DecidableEq

/-- Model of the JavaScript expression a || b on an optional string:
an absent or empty left operand is falsy and yields the right operand. -/
def jsOrString (a b : Option String) : Option String :=
  match a with
  | some s => if s.isEmpty then b else some s
  | none => b

/-- Model of the query string built by handleCheckVersionExists
(src/index.ts lines 897-900): exact-match clauses for groupId,
artifactId and the resolved version, plus packaging when truthy. -/
def buildVersionExistsQuery (coord : MavenCoordinate) (version : String) : String :=
  "g:\"" ++ coord.groupId ++ "\" AND a:\"" ++ coord.artifactId ++
    "\" AND v:\"" ++ version ++ "\"" ++
    (match coord.packaging with
     | some p => if p.isEmpty then "" else " AND p:\"" ++ p ++ "\""
     | none => "")

/-- Model of handleCheckVersionExists (src/index.ts lines 877-900) up
to the network call: parse the coordinate, resolve the version as
coord.version || args.version, fail with InvalidParams when the result
is falsy, otherwise produce the existence query that is issued. -/
def checkVersionExistsQuery (args : CheckVersionArgs) : Except McpError String :=
  match parseMavenCoordinate args.dependency with
  | Except.error e => Except.error e
  | Except.ok coord =>
    match jsOrString coord.version args.version with
    | none => Except.error invalidVersionSourceError
    | some v =>
      if v.isEmpty then Except.error invalidVersionSourceError
      else Except.ok (buildVersionExistsQuery coord v)

/-- Helper: a case-insensitive match at some position implies the
infix test succeeds. -/
theorem prefixCI_drop_infixCI (pat : List Char) :
    ∀ (l : List Char) (i : Nat), prefixCI pat (l.drop i) = true → infixCI pat l = true := by
  intro l
  induction l with
  | nil =>
    intro i h
    simpa [infixCI, List.drop_nil] using h
  | cons c cs ih =>
    intro i h
    cases i with
    | zero =>
      simp only [List.drop_zero] at h
      simp [infixCI, h]
    | succ n =>
      simp only [List.drop_succ_cons] at h
      simp [infixCI, ih n h]

/-- Helper: a successful infix test exhibits a matching position. -/
theorem infixCI_exists (pat : List Char) :
    ∀ (l : List Char), infixCI pat l = true → ∃ i, prefixCI pat (l.drop i) = true := by
  intro l
  induction l with
  | nil =>
    intro h
    exact ⟨0, by simpa [infixCI] using h⟩
  | cons c cs ih =>
    intro h
    rcases Bool.or_eq_true_iff.mp (by simpa [infixCI] using h) with hp | hi
    · exact ⟨0, by simpa using hp⟩
    · obtain ⟨i, hi2⟩ := ih hi
      exact ⟨i + 1, by simpa using hi2⟩

/-- The spec-level reading of the pre-release classifier: some
qualifier token occurs right after a hyphen somewhere in the string
(case-insensitive). -/
def HasHyphenQualifier (v : String) : Prop :=
  ∃ q ∈ preReleaseQualifiers, ∃ i, prefixCI ('-' :: q.data) (v.data.drop i) = true

/-- Helper: the regex test is equivalent to the positional
characterization. -/
theorem isPreReleaseVersion_iff (v : String) :
    isPreReleaseVersion v = true ↔ HasHyphenQualifier v := by
  unfold isPreReleaseVersion HasHyphenQualifier
  rw [List.any_eq_true]
  constructor
  · rintro ⟨q, hq, hinf⟩
    exact ⟨q, hq, infixCI_exists _ _ hinf⟩
  · rintro ⟨q, hq, i, hp⟩
    exact ⟨q, hq, prefixCI_drop_infixCI _ _ i hp⟩

/-- Claim C1, counterexample: the string "a:" has only one non-empty
colon-delimited segment, yet parseMavenCoordinate succeeds on it (with
an empty artifactId) instead of failing with InvalidParams. -/
theorem claim_C1_counterexample :
    parseMavenCoordinate "a:" = Except.ok ⟨"a", "", none, none, none⟩ ∧
    ((jsSplit ':' "a:").filter (fun p => !p.isEmpty)).length = 1 :=
  ⟨rfl, rfl⟩

/-- Claim C1, amended: parseMavenCoordinate succeeds exactly when the
string splits into at least 2 colon-delimited segments, empty segments
included; on success groupId and artifactId are the first two segments
verbatim, and with fewer than 2 segments it fails with the
InvalidParams coordinate-format error. -/
theorem claim_C1_amended (s : String) :
    (2 ≤ (jsSplit ':' s).length →
      parseMavenCoordinate s =
        Except.ok ⟨(jsSplit ':' s).getD 0 "", (jsSplit ':' s).getD 1 "",
          (jsSplit ':' s)[2]?, (jsSplit ':' s)[3]?, (jsSplit ':' s)[4]?⟩) ∧
    ((jsSplit ':' s).length < 2 →
      parseMavenCoordinate s = Except.error invalidCoordinateFormatError) := by
  have hdef : parseMavenCoordinate s = coordOfParts (jsSplit ':' s) := rfl
  rcases hp : jsSplit ':' s with _ | ⟨g, _ | ⟨a, rest⟩⟩
  · refine ⟨fun h2 => ?_, fun _ => ?_⟩
    · simp at h2
    · rw [hdef, hp]; rfl
  · refine ⟨fun h2 => ?_, fun _ => ?_⟩
    · simp at h2
    · rw [hdef, hp]; rfl
  · refine ⟨fun _ => ?_, fun h1 => ?_⟩
    · rw [hdef, hp]
      simp [coordOfParts, List.getD]
    · simp only [List.length_cons] at h1
      omega

/-- Claim C1, witness for the amended theorem at "g:a:v". -/
theorem claim_C1_amended_witness :
    2 ≤ (jsSplit ':' "g:a:v").length ∧
    parseMavenCoordinate "g:a:v" = Except.ok ⟨"g", "a", some "v", none, none⟩ :=
  ⟨by decide, ((claim_C1_amended "g:a:v").1 (by decide)).trans rfl⟩

/-- Claim C10: with more than 5 colon-delimited segments, parsing
succeeds, the first five segments map to groupId, artifactId, version,
packaging and classifier, and the extra segments are discarded: the
result equals parsing only the first five segments. -/
theorem claim_C10 (s : String) (h : 5 < (jsSplit ':' s).length) :
    parseMavenCoordinate s =
      Except.ok ⟨(jsSplit ':' s).getD 0 "", (jsSplit ':' s).getD 1 "",
        some ((jsSplit ':' s).getD 2 ""), some ((jsSplit ':' s).getD 3 ""),
        some ((jsSplit ':' s).getD 4 "")⟩ ∧
    parseMavenCoordinate s = coordOfParts ((jsSplit ':' s).take 5) := by
  have hdef : parseMavenCoordinate s = coordOfParts (jsSplit ':' s) := rfl
  rcases hp : jsSplit ':' s with _ | ⟨a, _ | ⟨b, _ | ⟨c, _ | ⟨d, _ | ⟨e, _ | ⟨f, rest⟩⟩⟩⟩⟩⟩ <;>
    rw [hp] at h <;> simp at h
  rw [hdef, hp]
  exact ⟨by simp [coordOfParts, List.getD], by simp [coordOfParts]⟩

/-- Claim C10, witness at a 6-segment coordinate string. -/
theorem claim_C10_witness :
    5 < (jsSplit ':' "a:b:c:d:e:f").length ∧
    parseMavenCoordinate "a:b:c:d:e:f" =
      Except.ok ⟨"a", "b", some "c", some "d", some "e"⟩ ∧
    parseMavenCoordinate "a:b:c:d:e:f" = parseMavenCoordinate "a:b:c:d:e" := by
  have h := claim_C10 "a:b:c:d:e:f" (by decide)
  exact ⟨by decide, h.1.trans rfl, h.2.trans rfl⟩

/-- Length of the leading run of digit or dot characters: the numeric
core prefix of a version string, as the claim describes it. -/
def numericCoreLength : List Char → Nat
  | [] => 0
  | c :: cs => if c.isDigit || c = '.' then numericCoreLength cs + 1 else 0

/-- Classifier as claim C2 words it: a qualifier token preceded by a
hyphen placed immediately after the numeric core, case-insensitive. -/
def isPreReleaseSpecC2 (v : String) : Bool :=
  match v.data.drop (numericCoreLength v.data) with
  | '-' :: tail => preReleaseQualifiers.any (fun q => prefixCI q.data tail)
  | _ => false

/-- Claim C2, counterexample: in "1.0.0-final-m" no qualifier token
follows the hyphen immediately after the numeric core "1.0.0", yet
isPreReleaseVersion returns true because the regex matches the "-m"
occurring later in the string. -/
theorem claim_C2_counterexample :
    isPreReleaseVersion "1.0.0-final-m" = true ∧
    isPreReleaseSpecC2 "1.0.0-final-m" = false := by
  exact ⟨by decide, by decide⟩

/-- Claim C2, amended: isPreReleaseVersion returns true exactly when
the version string contains, anywhere, a hyphen immediately followed
by one of the qualifier tokens alpha, a, beta, b, milestone, m, rc,
cr, snapshot (case-insensitive); in particular the six quoted example
evaluations hold. -/
theorem claim_C2_amended :
    (∀ v : String, isPreReleaseVersion v = true ↔ HasHyphenQualifier v) ∧
    isPreReleaseVersion "7.0.0-M6" = true ∧
    isPreReleaseVersion "6.2.8" = false ∧
    isPreReleaseVersion "3.1.0-SNAPSHOT" = true ∧
    isPreReleaseVersion "2.5.0-RC1" = true ∧
    isPreReleaseVersion "1.0.0-alpha" = true ∧
    isPreReleaseVersion "4.0.0" = false := by
  refine ⟨isPreReleaseVersion_iff, ?_, ?_, ?_, ?_, ?_, ?_⟩ <;> decide

/-- Claim C9: every version string in which a hyphen anywhere is
immediately followed by a qualifier token (including the single-letter
aliases as prefixes of unrelated words) is classified pre-release; in
particular "1.0.0-modules" and "2.0-b2024" are. -/
theorem claim_C9 :
    (∀ v : String, HasHyphenQualifier v → isPreReleaseVersion v = true) ∧
    isPreReleaseVersion "1.0.0-modules" = true ∧
    isPreReleaseVersion "2.0-b2024" = true := by
  refine ⟨fun v h => (isPreReleaseVersion_iff v).mpr h, by decide, by decide⟩

/-- Claim C9, witness: the hyphen-qualifier occurrence in
"1.0.0-modules" (token "m" at the position of the hyphen), fed through
the theorem. -/
theorem claim_C9_witness :
    HasHyphenQualifier "1.0.0-modules" ∧ isPreReleaseVersion "1.0.0-modules" = true := by
  have hq : HasHyphenQualifier "1.0.0-modules" := ⟨"m", by decide, 5, by decide⟩
  exact ⟨hq, claim_C9.1 "1.0.0-modules" hq⟩

/-- Claim C3: the highest-semantic-value comparator treats
"1.0.0-beta" and "1.0.0" as equal (the "0-beta" component coerces to
0), and over ["1.9.0", "1.10.0", "2.0.0"] it ranks "2.0.0" highest,
then "1.10.0", then "1.9.0", numerically rather than lexically. -/
theorem claim_C3 :
    compareVersions "1.0.0-beta" "1.0.0" = 0 ∧
    versionParts "1.0.0-beta" = [1, 0, 0] ∧
    sortVersions ["1.9.0", "1.10.0", "2.0.0"] = ["2.0.0", "1.10.0", "1.9.0"] ∧
    latestBySemanticVersion ["1.9.0", "1.10.0", "2.0.0"] = some "2.0.0" := by
  refine ⟨by decide, by decide, by decide, by decide⟩

/-- Helper: the no-stable-releases message always differs from the
not-found message (their lengths differ by a constant). -/
theorem noStable_ne_notFound (coord : MavenCoordinate) :
    noStableText coord ≠ notFoundText coord := by
  intro h
  have hl := congrArg String.length h
  unfold noStableText notFoundText at hl
  rw [String.length_append, String.length_append, String.length_append] at hl
  have h1 : ("No stable releases found for ").length = 29 := rfl
  have h2 : ("No Maven dependency found for ").length = 30 := rfl
  have h3 : (". All available versions are pre-releases.").length = 42 := rfl
  omega

/-- Claim C4: over a nonempty candidate set whose versions are all
pre-releases, both handleGetLatestRelease and handleListVersions with
excludePreReleases enabled return the error-flagged no-stable-releases
text rather than a version, and that text is distinct from the
zero-candidate not-found text returned on an empty candidate set. -/
theorem claim_C4 (coord : MavenCoordinate) (depth : Int) (docs : List VersionDoc)
    (hne : docs ≠ [])
    (hall : ∀ d ∈ docs, isPreReleaseVersion d.v = true) :
    getLatestReleaseResult coord true docs = ⟨noStableText coord, true⟩ ∧
    listVersionsResult coord depth true docs = ⟨noStableText coord, true⟩ ∧
    getLatestReleaseResult coord true [] = ⟨notFoundText coord, true⟩ ∧
    listVersionsResult coord depth true [] = ⟨notFoundText coord, true⟩ ∧
    noStableText coord ≠ notFoundText coord := by
  have hfilter : filterDocs true docs = [] := by
    have hnil : docs.filter (fun d => !isPreReleaseVersion d.v) = [] := by
      rw [List.filter_eq_nil_iff]
      intro d hd
      simp [hall d hd]
    simpa [filterDocs] using hnil
  have hdocs : docs.isEmpty = false := by
    cases docs with
    | nil => exact absurd rfl hne
    | cons d ds => rfl
  refine ⟨?_, ?_, rfl, rfl, noStable_ne_notFound coord⟩
  · unfold getLatestReleaseResult
    rw [hdocs, hfilter]
    rfl
  · unfold listVersionsResult
    rw [hdocs, hfilter]
    rfl

/-- Claim C4, witness: a one-element all-pre-release candidate set. -/
theorem claim_C4_witness :
    getLatestReleaseResult ⟨"g", "a", none, none, none⟩ true
        [⟨"i", "g", "a", "1.0-SNAPSHOT", none, 100⟩] =
      ⟨"No stable releases found for g:a. All available versions are pre-releases.", true⟩ ∧
    listVersionsResult ⟨"g", "a", none, none, none⟩ 15 true
        [⟨"i", "g", "a", "1.0-SNAPSHOT", none, 100⟩] =
      ⟨"No stable releases found for g:a. All available versions are pre-releases.", true⟩ := by
  have h := claim_C4 ⟨"g", "a", none, none, none⟩ 15
    [⟨"i", "g", "a", "1.0-SNAPSHOT", none, 100⟩] (by decide) (by decide)
  exact ⟨h.1.trans rfl, h.2.1.trans rfl⟩

/-- Claim C5: over a candidate set that is nonempty after filtering,
list_maven_versions returns a non-error payload equal to the
newline-join of the formatted lines; the lines are the first depth
entries (default 15 when absent) of the candidates sorted by publish
timestamp descending, each formatted from its document, and there are
exactly min(depth, candidates) of them. -/
theorem claim_C5 (coord : MavenCoordinate) (depth : Int) (excl : Bool)
    (docs : List VersionDoc) (hf : filterDocs excl docs ≠ []) :
    listVersionsResult coord depth excl docs =
      ⟨String.intercalate "\n" (listVersionsLines depth (filterDocs excl docs)), false⟩ ∧
    listVersionsLines depth (filterDocs excl docs) =
      ((sortByTimestampDesc (filterDocs excl docs)).take depth.toNat).map formatVersionLine ∧
    (listVersionsLines depth (filterDocs excl docs)).length =
      min depth.toNat (filterDocs excl docs).length ∧
    List.Sorted timestampGe ((sortByTimestampDesc (filterDocs excl docs)).take depth.toNat) ∧
    resolveDepth none = 15 := by
  have hdocs : docs.isEmpty = false := by
    cases docs with
    | nil =>
      exfalso
      apply hf
      cases excl <;> rfl
    | cons d ds => rfl
  have hfe : (filterDocs excl docs).isEmpty = false := by
    cases hc : filterDocs excl docs with
    | nil => exact absurd hc hf
    | cons d ds => rfl
  refine ⟨?_, rfl, ?_, ?_, rfl⟩
  · simp only [listVersionsResult, hdocs, hfe, Bool.false_eq_true, if_false]
  · unfold listVersionsLines
    rw [List.length_map, List.length_take]
    unfold sortByTimestampDesc
    rw [List.length_insertionSort]
  · exact List.Pairwise.sublist (List.take_sublist _ _)
      (List.sorted_insertionSort timestampGe (filterDocs excl docs))

/-- Claim C5, witness: depth 5 over 10 candidates with scrambled
timestamps yields exactly the 5 most recent lines, most recent first. -/
theorem claim_C5_witness :
    listVersionsResult ⟨"g", "a", none, none, none⟩ 5 false
        [⟨"i1", "g", "a", "v9", none, 777600000⟩,
         ⟨"i2", "g", "a", "v3", none, 259200000⟩,
         ⟨"i3", "g", "a", "v7", none, 604800000⟩,
         ⟨"i4", "g", "a", "v1", none, 86400000⟩,
         ⟨"i5", "g", "a", "v5", none, 432000000⟩,
         ⟨"i6", "g", "a", "v2", none, 172800000⟩,
         ⟨"i7", "g", "a", "v8", none, 691200000⟩,
         ⟨"i8", "g", "a", "v0", none, 0⟩,
         ⟨"i9", "g", "a", "v6", none, 518400000⟩,
         ⟨"i10", "g", "a", "v4", none, 345600000⟩] =
      ⟨"v9 (1970-01-10)\nv8 (1970-01-09)\nv7 (1970-01-08)\nv6 (1970-01-07)\nv5 (1970-01-06)",
       false⟩ ∧
    (listVersionsLines 5 (filterDocs false
        [⟨"i1", "g", "a", "v9", none, 777600000⟩,
         ⟨"i2", "g", "a", "v3", none, 259200000⟩,
         ⟨"i3", "g", "a", "v7", none, 604800000⟩,
         ⟨"i4", "g", "a", "v1", none, 86400000⟩,
         ⟨"i5", "g", "a", "v5", none, 432000000⟩,
         ⟨"i6", "g", "a", "v2", none, 172800000⟩,
         ⟨"i7", "g", "a", "v8", none, 691200000⟩,
         ⟨"i8", "g", "a", "v0", none, 0⟩,
         ⟨"i9", "g", "a", "v6", none, 518400000⟩,
         ⟨"i10", "g", "a", "v4", none, 345600000⟩])).length = 5 := by
  have h := claim_C5 ⟨"g", "a", none, none, none⟩ 5 false
    [⟨"i1", "g", "a", "v9", none, 777600000⟩,
     ⟨"i2", "g", "a", "v3", none, 259200000⟩,
     ⟨"i3", "g", "a", "v7", none, 604800000⟩,
     ⟨"i4", "g", "a", "v1", none, 86400000⟩,
     ⟨"i5", "g", "a", "v5", none, 432000000⟩,
     ⟨"i6", "g", "a", "v2", none, 172800000⟩,
     ⟨"i7", "g", "a", "v8", none, 691200000⟩,
     ⟨"i8", "g", "a", "v0", none, 0⟩,
     ⟨"i9", "g", "a", "v6", none, 518400000⟩,
     ⟨"i10", "g", "a", "v4", none, 345600000⟩] (by decide)
  exact ⟨h.1.trans (by rfl), (h.2.2.1).trans (by rfl)⟩

/-- Helper: evaluation of checkVersionExistsQuery once the split of
the dependency string is known to have at least two segments. -/
theorem checkVersionExistsQuery_eq (dep : String) (vf : Option String)
    (g a : String) (rest : List String) (hp : jsSplit ':' dep = g :: a :: rest) :
    checkVersionExistsQuery ⟨dep, vf⟩ =
      match jsOrString rest[0]? vf with
      | none => Except.error invalidVersionSourceError
      | some v =>
        if v.isEmpty then Except.error invalidVersionSourceError
        else Except.ok (buildVersionExistsQuery ⟨g, a, rest[0]?, rest[1]?, rest[2]?⟩ v) := by
  unfold checkVersionExistsQuery parseMavenCoordinate
  rw [hp]
  rfl

/-- Claim C6: in check_maven_version_exists, a non-empty version
embedded as the third coordinate segment always decides the query,
whatever the separate version field holds; and when neither source
supplies a version the handler fails with InvalidParams instead of
producing a query. -/
theorem claim_C6 (dep : String) (vf : Option String)
    (h2 : 2 ≤ (jsSplit ':' dep).length) :
    (∀ ev, (jsSplit ':' dep)[2]? = some ev → ev ≠ "" →
      checkVersionExistsQuery ⟨dep, vf⟩ =
        Except.ok (buildVersionExistsQuery
          ⟨(jsSplit ':' dep).getD 0 "", (jsSplit ':' dep).getD 1 "",
           (jsSplit ':' dep)[2]?, (jsSplit ':' dep)[3]?, (jsSplit ':' dep)[4]?⟩ ev)) ∧
    (((jsSplit ':' dep)[2]? = none ∨ (jsSplit ':' dep)[2]? = some "") →
     (vf = none ∨ vf = some "") →
      checkVersionExistsQuery ⟨dep, vf⟩ = Except.error invalidVersionSourceError) := by
  rcases hp : jsSplit ':' dep with _ | ⟨g, _ | ⟨a, rest⟩⟩
  · rw [hp] at h2
    simp at h2
  · rw [hp] at h2
    simp at h2
  · constructor
    · intro ev hev hne
      simp only [List.getElem?_cons_succ, List.getElem?_cons_zero] at hev
      have hne2 : ev.isEmpty = false := by
        cases hb : ev.isEmpty
        · rfl
        · exact absurd ((String.isEmpty_iff ev).mp hb) hne
      rw [checkVersionExistsQuery_eq dep vf g a rest hp, hev]
      simp [jsOrString, hne2, List.getD, hev]
    · intro hemb hvf
      simp only [List.getElem?_cons_succ, List.getElem?_cons_zero] at hemb
      rw [checkVersionExistsQuery_eq dep vf g a rest hp]
      rcases hemb with he | he <;> rcases hvf with hv | hv <;> subst hv <;> rw [he] <;> rfl

/-- Claim C6, witness: an embedded version "1.0" wins over the
differing separate field "2.0", and no version at all is rejected. -/
theorem claim_C6_witness :
    checkVersionExistsQuery ⟨"g:a:1.0", some "2.0"⟩ =
      Except.ok "g:\"g\" AND a:\"a\" AND v:\"1.0\"" ∧
    checkVersionExistsQuery ⟨"g:a", none⟩ = Except.error invalidVersionSourceError := by
  have h1 := (claim_C6 "g:a:1.0" (some "2.0") (by decide)).1 "1.0" (by decide) (by decide)
  have h2 := (claim_C6 "g:a" none (by decide)).2 (Or.inl (by decide)) (Or.inl rfl)
  exact ⟨h1.trans rfl, h2⟩

/-- Claim C8: an embedded version that is present but empty (an empty
third segment) does not take precedence: the separate version field is
the one used in the existence query. -/
theorem claim_C8 (dep : String) (v : String)
    (h2 : 2 ≤ (jsSplit ':' dep).length)
    (h3 : (jsSplit ':' dep)[2]? = some "")
    (hv : v ≠ "") :
    checkVersionExistsQuery ⟨dep, some v⟩ =
      Except.ok (buildVersionExistsQuery
        ⟨(jsSplit ':' dep).getD 0 "", (jsSplit ':' dep).getD 1 "",
         (jsSplit ':' dep)[2]?, (jsSplit ':' dep)[3]?, (jsSplit ':' dep)[4]?⟩ v) := by
  rcases hp : jsSplit ':' dep with _ | ⟨g, _ | ⟨a, rest⟩⟩
  · rw [hp] at h2
    simp at h2
  · rw [hp] at h2
    simp at h2
  · rw [hp] at h3
    simp only [List.getElem?_cons_succ, List.getElem?_cons_zero] at h3
    have hv2 : v.isEmpty = false := by
      cases hb : v.isEmpty
      · rfl
      · exact absurd ((String.isEmpty_iff v).mp hb) hv
    have he : ("" : String).isEmpty = true := rfl
    rw [checkVersionExistsQuery_eq dep (some v) g a rest hp, h3]
    simp [jsOrString, he, hv2, List.getD, h3]

/-- Claim C8, witness: an empty third segment with and without a
trailing packaging segment defers to the separate version field. -/
theorem claim_C8_witness :
    checkVersionExistsQuery ⟨"group:artifact:", some "1.2"⟩ =
      Except.ok "g:\"group\" AND a:\"artifact\" AND v:\"1.2\"" ∧
    checkVersionExistsQuery ⟨"group:artifact::jar", some "1.2"⟩ =
      Except.ok "g:\"group\" AND a:\"artifact\" AND v:\"1.2\" AND p:\"jar\"" := by
  have h1 := claim_C8 "group:artifact:" "1.2" (by decide) (by decide) (by decide)
  have h2 := claim_C8 "group:artifact::jar" "1.2" (by decide) (by decide) (by decide)
  exact ⟨h1.trans rfl, h2.trans rfl⟩

/-- Claim C7, code behavior at the failing input: the runtime
validator only rejects nonpositive depths, so depth 101 (outside the
documented range, whose inputSchema declares maximum 100) passes
validation and list_maven_versions returns a listing instead of
failing with InvalidParams; depth 0 is rejected as the claim states. -/
theorem claim_C7_code_behavior :
    isValidListVersionsArgs ⟨"g:a", some 101, none⟩ = true ∧
    handleListVersions ⟨"g:a", some 101, some false⟩
        [⟨"i", "g", "a", "1.0", none, 86400000⟩] =
      Except.ok ⟨"1.0 (1970-01-02)", false⟩ ∧
    isValidListVersionsArgs ⟨"g:a", some 0, none⟩ = false ∧
    handleListVersions ⟨"g:a", some 0, some false⟩
        [⟨"i", "g", "a", "1.0", none, 86400000⟩] =
      Except.error invalidDependencyFormatError := by
  exact ⟨rfl, rfl, rfl, rfl⟩
